import Mathlib

/-!
Verification of the PY05 stream-processing / pipeline repository.

The Lean definitions below are a shallow embedding of the Python source:

* `Ex0`    — src/ex0/stream_processor.py (`NumericProcessor` with class-level
             aggregate state),
* `MainPy` — src/main.py (stateless `DataStream` variants),
* `Ex1`    — src/ex1/data_stream.py (stateful `DataStream` variants, the
             per-item mutation performed by `process_batch` is threaded as
             explicit state),
* `Ex2`    — src/ex2/nexus_pipeline.py (stages, pipelines, `NexusManager`).

Python exceptions are modelled with `Except PyErr`; `print` calls are
side-effect free narration and are dropped.  Python `str.split(sep)` with a
one-character separator is modelled by `splitChar` over the character list of
the string; `int(...)` and `float(...)` string conversion are modelled by
`pyInt?` / `pyFloat?` for decimal literals (optional sign, digits, optional
fractional part), which agree with Python on every literal appearing in the
repository and in the concrete scenarios of the claims.
-/

/-- Python exception values (the classes raised by the source). -/
inductive PyErr where
  | valueError (msg : String)
  | typeError (msg : String)
  | indexError (msg : String)
  | keyError (k : String)
  | exception (msg : String)
  | attributeError (msg : String)
  | pipelineError (msg : String)
deriving DecidableEq

/-- Digits of a character list folded into a natural number. -/
def digitsToNat (ds : List Char) : Nat :=
  ds.foldl (fun a c => a * 10 + (c.toNat - 48)) 0

/-- Python `str.strip()` of surrounding whitespace, on the character list. -/
def pyStrip (cs : List Char) : List Char :=
  ((cs.dropWhile Char.isWhitespace).reverse.dropWhile Char.isWhitespace).reverse

/-- Models Python `int(s)` for a string: optional surrounding whitespace,
optional sign, then decimal digits.  (Python also accepts underscores between
digits; no such literal occurs in the repository or the claims.) -/
def pyInt? (s : String) : Option Int :=
  match pyStrip s.data with
  | [] => Option.none
  | '-' :: rest =>
      if rest ≠ [] ∧ rest.all Char.isDigit then some (-(digitsToNat rest : Int))
      else Option.none
  | '+' :: rest =>
      if rest ≠ [] ∧ rest.all Char.isDigit then some ((digitsToNat rest : Int))
      else Option.none
  | cs =>
      if cs.all Char.isDigit then some ((digitsToNat cs : Int)) else Option.none

/-- Unsigned decimal literal: `digits`, `digits.digits`, `digits.` or
`.digits`. -/
def parseUnsignedFloat (cs : List Char) : Option ℚ :=
  let ip := cs.takeWhile Char.isDigit
  let rest := cs.drop ip.length
  match rest with
  | [] => if ip = [] then Option.none else some ((digitsToNat ip : ℚ))
  | '.' :: fs =>
      if fs.all Char.isDigit ∧ (ip ≠ [] ∨ fs ≠ []) then
        some (mkRat ((digitsToNat ip * 10 ^ fs.length + digitsToNat fs : Nat) : Int)
          (10 ^ fs.length))
      else Option.none
  | _ => Option.none

/-- Models Python `float(s)` for plain decimal literals (the only float
literals occurring in the repository's data). -/
def pyFloat? (s : String) : Option ℚ :=
  match pyStrip s.data with
  | '-' :: rest => (parseUnsignedFloat rest).map (fun q => -q)
  | '+' :: rest => parseUnsignedFloat rest
  | cs => parseUnsignedFloat cs

/-- Split a character list on a single separator character; models Python
`str.split(sep)` for a one-character `sep` (never returns `[]`). -/
def splitChar (c : Char) : List Char → List (List Char)
  | [] => [[]]
  | x :: xs =>
      let r := splitChar c xs
      if x = c then [] :: r
      else
        match r with
        | h :: t => (x :: h) :: t
        | [] => [[x]]

/-- Python `sep in s` / split used on `String`s: the split pieces as strings. -/
def strSplit (s : String) (c : Char) : List String :=
  (splitChar c s.data).map (fun l => String.mk l)

/-- Substring test (Python `pat in s`). -/
def strContains (s pat : String) : Bool :=
  s.data.tails.any (fun t => pat.data.isPrefixOf t)

/-- Decimal digits of the fraction `n / d` (with `n < d`), produced by long
division with fuel; used to render floats. -/
def decDigits : Nat → Nat → Nat → List Char
  | 0, _, _ => []
  | fuel + 1, n, d =>
      if n = 0 then []
      else Char.ofNat (48 + n * 10 / d) :: decDigits fuel (n * 10 % d) d

/-- Models Python `str`/f-string rendering of a float for terminating decimal
values (all float values in the repository's data terminate): sign, integer
part, then the fractional digits (`"0"` when there are none, as Python
prints e.g. `3.0`). -/
def pyFloatRepr (q : ℚ) : String :=
  let sgn := if q.num < 0 then "-" else ""
  let na := q.num.natAbs
  let ds := decDigits 30 (na % q.den) q.den
  sgn ++ toString (na / q.den) ++ "." ++ (if ds = [] then "0" else String.mk ds)

/-- Models Python `f"{x:.1f}"` (one fractional digit; half-up rounding, which
agrees with Python on the values arising in this repository):
`(20*|num| + den) / (2*den)` is `⌊|q|*10 + 1/2⌋`. -/
def fmt1f (q : ℚ) : String :=
  let sgn := if q.num < 0 then "-" else ""
  let n := (20 * q.num.natAbs + q.den) / (2 * q.den)
  sgn ++ toString (n / 10) ++ "." ++ toString (n % 10)

/-- A batch element handed to a stream handler: a Python string, or some
non-string object (only its not-being-a-string matters to the source; the
tag keeps distinct objects distinct). -/
inductive Item where
  | str (s : String)
  | other (tag : Nat)
deriving DecidableEq

/-- Python `str(item)` as used by the filter comprehensions. -/
def Item.pyStr : Item → String
  | .str s => s
  | .other tag => "<object " ++ toString tag ++ ">"

namespace Ex1

/-! ## src/ex1/data_stream.py

Each handler's private aggregate state is threaded explicitly:
`process_batch` takes the state before the call and returns the summary
string together with the state after the call.  The `try`/`except` of the
source catches every exception raised inside the loop; the loop functions
below return the state reached so far together with a success flag. -/

/-- Private state of `SensorStream` (`__sensor_report`, `__avg_t`). -/
structure SensorSt where
  sensor_report : Nat
  avg_t : ℚ
deriving DecidableEq

/-- One sensor item as consumed by the loop body of
`SensorStream.process_batch`: `none` when the item makes the body raise
(non-string, no `:` separator, or `float(...)` failure); otherwise the
parsed float and whether the field is `temp`. -/
def sensorItem? : Item → Option (ℚ × Bool)
  | .other _ => Option.none
  | .str s =>
      match strSplit s ':' with
      | a :: b :: _ =>
          match pyFloat? b with
          | some q => some (q, a = "temp")
          | Option.none => Option.none
      | _ => Option.none

/-- The per-item state commit of `SensorStream.process_batch` (increment the
reading count; record the value when the field is `temp`). -/
def sensorStep (st : SensorSt) (i : Item) : SensorSt :=
  match sensorItem? i with
  | some (q, istemp) => ⟨st.sensor_report + 1, if istemp then q else st.avg_t⟩
  | Option.none => st

/-- The `for` loop of `SensorStream.process_batch`: final state and whether
the loop completed without raising. -/
def sensorLoop : SensorSt → List Item → SensorSt × Bool
  | st, [] => (st, true)
  | st, i :: rest =>
      match sensorItem? i with
      | some (q, istemp) => sensorLoop ⟨st.sensor_report + 1, if istemp then q else st.avg_t⟩ rest
      | Option.none => (st, false)

namespace SensorStream

/-- `SensorStream.process_batch` (src/ex1/data_stream.py:47-68). -/
def process_batch (st : SensorSt) (data_batch : List Item) : String × SensorSt :=
  match sensorLoop st data_batch with
  | (st2, false) => ("Sensor analysis: 0 readings.", st2)
  | (st2, true) =>
      ("Sensor analysis: " ++ toString st2.sensor_report ++
       " readings processed, avg temp: " ++ fmt1f st2.avg_t ++ "°C", st2)

end SensorStream

/-- Private state of `TransactionStream` (`__buys`, `__sells`). -/
structure TxnSt where
  buys : Int
  sells : Int
deriving DecidableEq

/-- One transaction item as consumed by the loop body of
`TransactionStream.process_batch`: `none` when the body raises (non-string,
first split field not `buy`/`sell`, missing second field, or `int(...)`
failure); otherwise (is-buy, magnitude). -/
def txnItem? : Item → Option (Bool × Int)
  | .other _ => Option.none
  | .str s =>
      match strSplit s ':' with
      | a :: rest =>
          if a = "buy" then
            match rest.head? with
            | some t => (pyInt? t).map (fun v => (true, v))
            | Option.none => Option.none
          else if a = "sell" then
            match rest.head? with
            | some t => (pyInt? t).map (fun v => (false, v))
            | Option.none => Option.none
          else Option.none
      | [] => Option.none

/-- The per-item state commit of `TransactionStream.process_batch`. -/
def txnStep (st : TxnSt) (i : Item) : TxnSt :=
  match txnItem? i with
  | some (true, v) => ⟨st.buys + v, st.sells⟩
  | some (false, v) => ⟨st.buys, st.sells + v⟩
  | Option.none => st

/-- The `for` loop of `TransactionStream.process_batch`. -/
def txnLoop : TxnSt → List Item → TxnSt × Bool
  | st, [] => (st, true)
  | st, i :: rest =>
      match txnItem? i with
      | some (true, v) => txnLoop ⟨st.buys + v, st.sells⟩ rest
      | some (false, v) => txnLoop ⟨st.buys, st.sells + v⟩ rest
      | Option.none => (st, false)

/-- The f-string fragment `f"+{n_f}" if n_f >= 0 else n_f` rendering the net
flow with an explicit plus sign for non-negative values. -/
def signedRepr (n : Int) : String :=
  if 0 ≤ n then "+" ++ toString n else toString n

namespace TransactionStream

/-- `TransactionStream.process_batch` (src/ex1/data_stream.py:78-100).
The summary keeps the source's literal text, including its missing leading
`T` in `ransaction`. -/
def process_batch (st : TxnSt) (data_batch : List Item) : String × TxnSt :=
  match txnLoop st data_batch with
  | (st2, false) => ("ransaction analysis: 0 operations.", st2)
  | (st2, true) =>
      ("ransaction analysis: " ++ toString data_batch.length ++
       " operations, net flow: " ++ signedRepr (st2.buys - st2.sells) ++ " units", st2)

/-- The `"large"` list comprehension of `TransactionStream.filter_data`
(src/ex1/data_stream.py:111-116), scanning items left to right; the guard
`int(item.split(":")[1])` can raise on a non-integer second field. -/
def largeFilter : List Item → Except PyErr (List Item)
  | [] => .ok []
  | item :: rest =>
      match item with
      | .other _ => largeFilter rest
      | .str s =>
          if s.data.contains ':' then
            match pyInt? ((strSplit s ':').getD 1 "") with
            | some v =>
                if 100 ≤ v then (largeFilter rest).map (fun l => item :: l)
                else largeFilter rest
            | Option.none => .error (.valueError "invalid literal for int() with base 10")
          else largeFilter rest

end TransactionStream

/-- Private state of `EventStream` (`__events`, `__error`). -/
structure EvSt where
  events : Nat
  errors : Nat
deriving DecidableEq

/-- The `for` loop of `EventStream.process_batch`: the body raises on a
non-string item (before incrementing), otherwise commits the counters. -/
def evLoop : EvSt → List Item → EvSt × Bool
  | st, [] => (st, true)
  | st, .other _ :: _ => (st, false)
  | st, .str s :: rest =>
      evLoop ⟨st.events + 1, st.errors + (if s = "error" then 1 else 0)⟩ rest

/-- The per-item state commit of `EventStream.process_batch`. -/
def evStep (st : EvSt) (i : Item) : EvSt :=
  match i with
  | .str s => ⟨st.events + 1, st.errors + (if s = "error" then 1 else 0)⟩
  | .other _ => st

namespace EventStream

/-- `EventStream.process_batch` (src/ex1/data_stream.py:127-144). -/
def process_batch (st : EvSt) (data_batch : List Item) : String × EvSt :=
  match evLoop st data_batch with
  | (st2, false) => ("Event analysis: 0 events", st2)
  | (st2, true) =>
      ("Event analysis: " ++ toString st2.events ++ " events, " ++
       toString st2.errors ++ " error detected", st2)

end EventStream

/-- The list comprehension of `DataStream.filter_data`
(src/ex1/data_stream.py:27), scanning items left to right; `criteria in data`
raises `TypeError` on a non-string item. -/
def substrFilter (c : String) : List Item → Except PyErr (List Item)
  | [] => .ok []
  | item :: rest =>
      match item with
      | .str s =>
          if strContains s c then (substrFilter c rest).map (fun l => item :: l)
          else substrFilter c rest
      | .other _ => .error (.typeError "argument of type is not iterable")

/-- `DataStream.filter_data` (src/ex1/data_stream.py:17-27): `not criteria`
is true for `None` and for the empty string. -/
def DataStream.filter_data (data_batch : List Item) (criteria : Option String) :
    Except PyErr (List Item) :=
  match criteria with
  | Option.none => .ok data_batch
  | some c =>
      if c = "" then .ok data_batch
      else substrFilter c data_batch

/-- `TransactionStream.filter_data` (src/ex1/data_stream.py:102-117): the
`"large"` criterion runs the threshold comprehension, anything else defers to
`super().filter_data`. -/
def TransactionStream.filter_data (data_batch : List Item)
    (criteria : Option String) : Except PyErr (List Item) :=
  if criteria = some "large" then TransactionStream.largeFilter data_batch
  else DataStream.filter_data data_batch criteria

end Ex1

namespace MainPy

/-! ## src/main.py

The stream handlers of src/main.py keep no aggregate state (`net_flow` and
`temps` are locals), so `process_batch` is a function of the batch alone.
`TransactionStream.process_batch` has no `try`/`except`: the `ValueError`
raised by tuple unpacking or by `int(...)` propagates to the caller, hence
its result type is `Except PyErr String`. -/

/-- The contribution of one item to `net_flow` in
`TransactionStream.process_batch` (src/main.py:59-71): items that are not
strings containing `:` are skipped (`.ok 0`); for the others,
`action, val_str = item.split(":")` raises `ValueError` unless the split has
exactly two fields, `int(val_str)` raises on a non-integer, and actions other
than `buy`/`sell` leave `net_flow` unchanged. -/
def txnDelta : Item → Except PyErr Int
  | .other _ => .ok 0
  | .str s =>
      if s.data.contains ':' then
        match strSplit s ':' with
        | [a, vs] =>
            match pyInt? vs with
            | some v =>
                .ok (if a = "buy" then v else if a = "sell" then -v else 0)
            | Option.none =>
                .error (.valueError "invalid literal for int() with base 10")
        | _ => .error (.valueError "too many values to unpack (expected 2)")
      else .ok 0

/-- The `for` loop of `TransactionStream.process_batch`, accumulating
`net_flow` left to right and propagating the first exception. -/
def netLoop (acc : Int) : List Item → Except PyErr Int
  | [] => .ok acc
  | i :: rest =>
      match txnDelta i with
      | .error e => .error e
      | .ok d => netLoop (acc + d) rest

namespace TransactionStream

/-- `TransactionStream.process_batch` (src/main.py:59-71). -/
def process_batch (data_batch : List Item) : Except PyErr String :=
  (netLoop 0 data_batch).map (fun nf =>
    "Transaction analysis: " ++ toString data_batch.length ++
    " operations, net flow: " ++ (if 0 ≤ nf then "+" else "") ++ toString nf ++
    " units")

end TransactionStream

/-- Python `list.count(x)` (src/main.py:86). -/
def pyCount : List Item → Item → Nat
  | [], _ => 0
  | i :: rest, x => (if i = x then 1 else 0) + pyCount rest x

namespace EventStream

/-- `EventStream.process_batch` (src/main.py:85-87). -/
def process_batch (data_batch : List Item) : String :=
  "Event analysis: " ++ toString data_batch.length ++ " events, " ++
  toString (pyCount data_batch (Item.str "error")) ++ " error detected"

end EventStream

/-- `DataStream.filter_data` (src/main.py:16-21): `not criteria` is true for
`None` and the empty string; otherwise keep items with
`str(criteria) in str(item)` (total — `str()` never raises). -/
def DataStream.filter_data (data_batch : List Item)
    (criteria : Option String) : List Item :=
  match criteria with
  | Option.none => data_batch
  | some c =>
      if c = "" then data_batch
      else data_batch.filter (fun i => strContains i.pyStr c)

/-- `SensorStream.filter_data` (src/main.py:47-53). -/
def SensorStream.filter_data (data_batch : List Item)
    (criteria : Option String) : List Item :=
  if criteria = some "critical" then
    data_batch.filter (fun i =>
      strContains i.pyStr "alert" || strContains i.pyStr "crit")
  else DataStream.filter_data data_batch criteria

/-- The `"high_value"` comprehension of `TransactionStream.filter_data`
(src/main.py:78): `x.split` raises `AttributeError` on a non-string,
indexing raises when there is no `:` field, `int(...)` raises on a
non-integer. -/
def highValueFilter : List Item → Except PyErr (List Item)
  | [] => .ok []
  | item :: rest =>
      match item with
      | .other _ => .error (.attributeError "object has no attribute split")
      | .str s =>
          match (strSplit s ':').get? 1 with
          | Option.none => .error (.indexError "list index out of range")
          | some vs =>
              match pyInt? vs with
              | some v =>
                  if 500 < v then (highValueFilter rest).map (fun l => item :: l)
                  else highValueFilter rest
              | Option.none =>
                  .error (.valueError "invalid literal for int() with base 10")

/-- `TransactionStream.filter_data` (src/main.py:73-79): any criteria other
than `"high_value"` — including `None` — returns the batch unchanged. -/
def TransactionStream.filter_data (data_batch : List Item)
    (criteria : Option String) : Except PyErr (List Item) :=
  if criteria = some "high_value" then highValueFilter data_batch
  else .ok data_batch

/-- `EventStream` defines no override: `filter_data` is inherited from
`DataStream` (src/main.py:82-87). -/
def EventStream.filter_data (data_batch : List Item)
    (criteria : Option String) : List Item :=
  DataStream.filter_data data_batch criteria

end MainPy

namespace Ex0

/-! ## src/ex0/stream_processor.py

`NumericProcessor.sum_data` and `NumericProcessor.avg_data` are class
attributes: every mutation targets `NumericProcessor.<attr>` and
`get_data` is a classmethod reading them, so there is exactly one copy of
this state shared by all instances.  The embedding therefore threads a
single `ClassState`; an *instance* carries no aggregate data of its own and
is represented by a bare tag (`Nat`) where the source would pass `self`. -/

/-- A Python value handed to `NumericProcessor` (`data` or a list element). -/
inductive PyX where
  | intv (n : Int)
  | str (s : String)
  | list (xs : List PyX)
  | pynone

/-- The class-level shared state of `NumericProcessor`. -/
structure ClassState where
  sum_data : Int
  avg_data : Option ℚ
deriving DecidableEq

/-- Whether `int(num)` succeeds for a list element (src/ex0:56-57). -/
def intOk : PyX → Bool
  | .intv _ => true
  | .str s => (pyInt? s).isSome
  | .list _ => false
  | .pynone => false

namespace NumericProcessor

/-- `NumericProcessor.validate` (src/ex0/stream_processor.py:46-62): `data`
must be a list, non-empty, and `int(num)` must succeed for every element;
any raised exception is caught and turned into `False`. -/
def validate : PyX → Bool
  | .list xs => !xs.isEmpty && xs.all intOk
  | _ => false

/-- Python `sum(data)` over the list (src/ex0:31): integer elements add up;
a non-integer element raises `TypeError`.  (`validate` admits numeric
strings, on which `sum` would raise — the claims only concern lists of
actual integers, where `sum` succeeds.) -/
def pySum : List PyX → Except PyErr Int
  | [] => .ok 0
  | .intv n :: rest => (pySum rest).map (fun s => n + s)
  | _ :: _ => .error (.typeError "unsupported operand type for +")

/-- `NumericProcessor.process` (src/ex0/stream_processor.py:28-44), with the
shared class state passed in and the updated shared state returned. -/
def process (cs : ClassState) (data : PyX) : Except PyErr (String × ClassState) :=
  if validate data then
    match data with
    | .list xs =>
        match pySum xs with
        | .error e => .error e
        | .ok s =>
            let b : ℚ := (s : ℚ) / (xs.length : ℚ)
            let cs2 : ClassState :=
              ⟨cs.sum_data + s,
               some (match cs.avg_data with
                     | Option.none => b
                     | some a => (a + b) / 2)⟩
            .ok ("Processed " ++ toString xs.length ++ " numeric values, sum=" ++
                 toString s ++ ",vg=" ++ pyFloatRepr b, cs2)
    | _ => .error (.typeError "unreachable: validate only accepts lists")
  else .ok ("Error: data was not validate, please verify your input", cs)

/-- `NumericProcessor.get_data` (src/ex0/stream_processor.py:64-66): a
classmethod — the result depends only on the shared class state, never on
the instance (`inst`) it is observed through. -/
def get_data (inst : Nat) (cs : ClassState) : Int × Option ℚ :=
  let _ := inst
  (cs.sum_data, cs.avg_data)

end NumericProcessor

end Ex0

namespace Ex2

/-! ## src/ex2/nexus_pipeline.py

Pipeline payloads.  Python integers and floats get separate constructors
because their `str()` renderings differ.  A dict is its ordered entry list
(keys unique, insertion order preserved).

Each stage's `process` returns a pair `(ret, after)`: the value the call
returns together with the value the *caller's* argument object holds after
the call — `after` differs from the argument exactly when the stage mutated
the object in place (`TransformStage` does, via `data["status"] = "valid"`;
rebinding the local `data`, as the csv branch does, leaves the caller's
object untouched, and Python strings are immutable). -/

/-- A Python payload value flowing through the ex2 pipeline. -/
inductive PyV where
  | pynone
  | str (s : String)
  | intv (n : Int)
  | floatv (q : ℚ)
  | list (xs : List PyV)
  | dict (entries : List (String × PyV))

/-- Python truthiness (`if not data`). -/
def pyTruthy : PyV → Bool
  | .pynone => false
  | .str s => s ≠ ""
  | .intv n => n ≠ 0
  | .floatv q => q ≠ 0
  | .list xs => !xs.isEmpty
  | .dict entries => !entries.isEmpty

/-- Python `d[k] = v` on a dict: update the first matching key in place,
else append. -/
def dictSet : List (String × PyV) → String → PyV → List (String × PyV)
  | [], k, v => [(k, v)]
  | (k2, v2) :: rest, k, v =>
      if k2 = k then (k, v) :: rest else (k2, v2) :: dictSet rest k v

/-- Python f-string / `str()` rendering of a payload.  (Nested containers
render through Python `repr` of their elements; no claim touches that case,
so it is abbreviated to a marker.) -/
def pyFStr : PyV → String
  | .pynone => "None"
  | .str s => s
  | .intv n => toString n
  | .floatv q => pyFloatRepr q
  | .list _ => "<list>"
  | .dict _ => "<dict>"

/-- The numeric content of a payload, for `data["value"] > 40`: comparing a
non-number against an int raises `TypeError` in Python. -/
def pyToRat? : PyV → Option ℚ
  | .intv n => some (n : ℚ)
  | .floatv q => some q
  | _ => Option.none

/-- Python `s[1:-1]` (drop the first and the last character). -/
def strSlice1m1 (s : String) : String :=
  String.mk ((s.data.drop 1).dropLast)

namespace InputStage

/-- `InputStage.process` (src/ex2/nexus_pipeline.py:24-35): raise
`ValueError` on a falsy payload, otherwise return it unchanged; never
mutates its argument. -/
def process (data : PyV) : Except PyErr (PyV × PyV) :=
  if pyTruthy data then .ok (data, data)
  else .error (.valueError "Impty data!")

end InputStage

namespace TransformStage

/-- `TransformStage.process` (src/ex2/nexus_pipeline.py:38-58).  Branch
order as in the source: dict containing `"sensor"` → annotate
`data["status"] = "valid"` *in place* (the caller's dict is mutated, so
`after` is the annotated dict); `== "INVALID_DATA"` → raise `ValueError`
(only a string can compare equal to a string); string containing `,` →
slice off the first and last character, split on `,`, build a fresh csv
record (the local rebinding leaves the caller's string untouched); anything
else passes through unchanged. -/
def process (data : PyV) : Except PyErr (PyV × PyV) :=
  match data with
  | .dict entries =>
      if (entries.lookup "sensor").isSome then
        let d2 := PyV.dict (dictSet entries "status" (.str "valid"))
        .ok (d2, d2)
      else .ok (data, data)
  | .str s =>
      if s = "INVALID_DATA" then .error (.valueError "Invalid data format")
      else if s.data.contains ',' then
        let parts := strSplit (strSlice1m1 s) ','
        .ok (.dict [("type", .str "csv"),
                    ("headers", .list (parts.map PyV.str)),
                    ("count", .intv 1)],
             .str s)
      else .ok (data, data)
  | d => .ok (d, d)

end TransformStage

namespace OutputStage

/-- `OutputStage.process` (src/ex2/nexus_pipeline.py:61-85).  Dict with
`"headers"` → activity summary (`data["count"]` raises `KeyError` when
missing); other dict → temperature rendering from `data['value']` and
`data['unit']` (KeyError when missing), then band classification with the
source's *strict* comparisons `> 40` / `< 5`; string → canned stream
summary; anything else → `TypeError`.  Never mutates its argument. -/
def process (data : PyV) : Except PyErr (PyV × PyV) :=
  match data with
  | .dict entries =>
      if (entries.lookup "headers").isSome then
        match entries.lookup "count" with
        | Option.none => .error (.keyError "count")
        | some cv =>
            .ok (.str ("User activity logged: " ++ pyFStr cv ++ " actions processed"),
                 data)
      else
        match entries.lookup "value" with
        | Option.none => .error (.keyError "value")
        | some v =>
            match entries.lookup "unit" with
            | Option.none => .error (.keyError "unit")
            | some u =>
                let base := "Processed Temperature reading:" ++ pyFStr v ++ "°" ++ pyFStr u
                match pyToRat? v with
                | Option.none =>
                    .error (.typeError "not supported between instances")
                | some q =>
                    .ok (.str (base ++
                          (if 40 < q then " (High range)"
                           else if q < 5 then " (Low range)"
                           else " (Normal range)")),
                         data)
  | .str _ => .ok (.str "Stream summary: 5 readings, avg: 22.1°C", data)
  | _ => .error (.typeError "Invalid type")

end OutputStage

/-- The three concrete stage classes, as a closed sum (design note §9 of the
spec: duck typing modelled as a tagged variant). -/
inductive Stage where
  | input
  | transform
  | output
deriving DecidableEq

/-- Dynamic dispatch of `stage.process(data)`. -/
def Stage.process : Stage → PyV → Except PyErr (PyV × PyV)
  | .input => InputStage.process
  | .transform => TransformStage.process
  | .output => OutputStage.process

/-- The adapter subclasses of `ProcessingPipeline` (`JSONAdapter`,
`CSVAdapter`, `StreamAdapter`), all sharing the inherited behaviour. -/
inductive AdapterKind where
  | json
  | csv
  | stream
deriving DecidableEq

/-- A `ProcessingPipeline`: its id, its concrete adapter class, and its
private ordered `__stages` list. -/
structure Pipeline where
  pipeline_id : String
  kind : AdapterKind
  stages : List Stage

/-- `ProcessingPipeline.add_stage` (src/ex2/nexus_pipeline.py:104-106). -/
def Pipeline.add_stage (p : Pipeline) (s : Stage) : Pipeline :=
  { p with stages := p.stages ++ [s] }

/-- The `for` loop of `ProcessingPipeline.process`
(src/ex2/nexus_pipeline.py:96-102): thread the returned value of each stage
into the next, propagating the first exception. -/
def runStages : List Stage → PyV → Except PyErr PyV
  | [], d => .ok d
  | s :: rest, d =>
      match s.process d with
      | .error e => .error e
      | .ok (r, _) => runStages rest r

/-- `ProcessingPipeline.process` as inherited by all three adapters. -/
def Pipeline.process (p : Pipeline) (data : PyV) : Except PyErr PyV :=
  runStages p.stages data

/-- Whether a registered pipeline matches a requested format: the
`isinstance`/`format_type` tests of `NexusManager.process_data`
(src/ex2/nexus_pipeline.py:180-186). -/
def matchesFmt (p : Pipeline) (format_type : String) : Bool :=
  match p.kind with
  | .json => format_type = "json"
  | .csv => format_type = "csv"
  | .stream => format_type = "stream"

namespace NexusManager

/-- `NexusManager.process_data` (src/ex2/nexus_pipeline.py:177-187): scan
the registry (`_pipelines`, in registration order) and return the first
matching pipeline's `process` result; raise `PipelineError` naming the
requested format when no pipeline matches. -/
def process_data (pipelines : List Pipeline) (data : PyV)
    (format_type : String) : Except PyErr PyV :=
  match pipelines with
  | [] => .error (.pipelineError (" No suitable pipeline found for " ++ format_type))
  | p :: rest =>
      if matchesFmt p format_type then p.process data
      else process_data rest data format_type

/-- The `for` loop of `NexusManager.execute_chain`: fold `process` over the
chain, feeding each pipeline's output to the next. -/
def chainFold (data : PyV) : List Pipeline → Except PyErr PyV
  | [] => .ok data
  | p :: rest =>
      match p.process data with
      | .error e => .error e
      | .ok v => chainFold v rest

/-- `NexusManager.execute_chain` (src/ex2/nexus_pipeline.py:189-201): the
`try`/`except` catches any exception raised by the chain and prints it; the
`return curent_data` sits in the `else` clause, so on failure the function
falls through and returns `None` (modelled as `Option.none`). -/
def execute_chain (data : PyV) (chain : List Pipeline) : Option PyV :=
  match chainFold data chain with
  | .ok v => some v
  | .error _ => Option.none

end NexusManager

end Ex2

/-! ## Spec-side notions used to state the claims -/

/-- Whether a batch item is a Python string. -/
def Item.isStr : Item → Bool
  | .str _ => true
  | .other _ => false

/-- The buy magnitude an item contributes in src/ex1 (0 when the item is not
a well-formed buy operation). -/
def buyMag (i : Item) : Int :=
  match Ex1.txnItem? i with
  | some (true, v) => v
  | _ => 0

/-- The sell magnitude an item contributes in src/ex1. -/
def sellMag (i : Item) : Int :=
  match Ex1.txnItem? i with
  | some (false, v) => v
  | _ => 0

/-- Sum of buy magnitudes of a batch (the claim's `sum(buy magnitudes)`). -/
def buySum (batch : List Item) : Int := (batch.map buyMag).sum

/-- Sum of sell magnitudes of a batch. -/
def sellSum (batch : List Item) : Int := (batch.map sellMag).sum

namespace MainPy

/-- A well-formed buy/sell item as consumed by src/main.py's
`TransactionStream` (exactly two `:`-separated fields, an integer
magnitude): `(is-buy, magnitude)`. -/
def buySell? : Item → Option (Bool × Int)
  | .other _ => Option.none
  | .str s =>
      match strSplit s ':' with
      | [a, vs] =>
          if a = "buy" then (pyInt? vs).map (fun v => (true, v))
          else if a = "sell" then (pyInt? vs).map (fun v => (false, v))
          else Option.none
      | _ => Option.none

/-- Sum of buy magnitudes recognized by src/main.py. -/
def buySumM (batch : List Item) : Int :=
  (batch.map (fun i => match buySell? i with | some (true, v) => v | _ => 0)).sum

/-- Sum of sell magnitudes recognized by src/main.py. -/
def sellSumM (batch : List Item) : Int :=
  (batch.map (fun i => match buySell? i with | some (false, v) => v | _ => 0)).sum

end MainPy

namespace Ex2

/-- The claim's (spec-side) classification bands, as worded in the spec:
high when the value is `≥ 40`, low when it is `≤ 5`, normal otherwise. -/
def specClassify (q : ℚ) : String :=
  if 40 ≤ q then " (High range)"
  else if q ≤ 5 then " (Low range)"
  else " (Normal range)"

/-- Whether a payload is a mapping containing a `"sensor"` key (the guard of
`TransformStage`'s annotating branch). -/
def sensorDictCond : PyV → Bool
  | .dict entries => (entries.lookup "sensor").isSome
  | _ => false

/-- The in-place annotation `data["status"] = "valid"` performed by
`TransformStage` on a sensor mapping. -/
def annotated : PyV → PyV
  | .dict entries => .dict (dictSet entries "status" (.str "valid"))
  | d => d

end Ex2

/-! ## Helper lemmas -/

theorem splitChar_of_not_mem (c : Char) (l : List Char) (h : ¬ c ∈ l) :
    splitChar c l = [l] := by
  induction l with
  | nil => rfl
  | cons x xs ih =>
      have hxc : ¬ x = c := by
        intro hx
        exact h (hx ▸ List.mem_cons_self x xs)
      have hxs : ¬ c ∈ xs := fun hm => h (List.mem_cons_of_mem _ hm)
      simp only [splitChar, if_neg hxc, ih hxs]

theorem strSplit_pair_contains (s : String) (a vs : String)
    (h : strSplit s ':' = [a, vs]) : s.data.contains ':' = true := by
  by_contra hc
  have hnm : ¬ ':' ∈ s.data := by
    intro hm
    exact hc (List.elem_eq_true_of_mem hm)
  rw [strSplit, splitChar_of_not_mem _ _ hnm] at h
  simp at h

theorem sensorLoop_append_ok (pre l : List Item) :
    ∀ st : Ex1.SensorSt, (∀ i ∈ pre, (Ex1.sensorItem? i).isSome) →
      Ex1.sensorLoop st (pre ++ l) = Ex1.sensorLoop (pre.foldl Ex1.sensorStep st) l := by
  induction pre with
  | nil => intro st _; rfl
  | cons i t ih =>
      intro st h
      have hi := h i (List.mem_cons_self i t)
      cases hq : Ex1.sensorItem? i with
      | none => rw [hq] at hi; simp at hi
      | some qt =>
          obtain ⟨q, istemp⟩ := qt
          simp only [List.cons_append, Ex1.sensorLoop, hq, List.foldl_cons,
            Ex1.sensorStep]
          exact ih _ (fun j hj => h j (List.mem_cons_of_mem _ hj))

theorem sensorLoop_fails (batch : List Item) :
    ∀ st : Ex1.SensorSt, (∃ i ∈ batch, Ex1.sensorItem? i = Option.none) →
      (Ex1.sensorLoop st batch).2 = false := by
  induction batch with
  | nil => intro st h; simp at h
  | cons i t ih =>
      intro st h
      cases hq : Ex1.sensorItem? i with
      | none => simp [Ex1.sensorLoop, hq]
      | some qt =>
          obtain ⟨q, istemp⟩ := qt
          simp only [Ex1.sensorLoop, hq]
          apply ih
          obtain ⟨j, hj, hjn⟩ := h
          rcases List.mem_cons.mp hj with rfl | hmem
          · rw [hq] at hjn; cases hjn
          · exact ⟨j, hmem, hjn⟩

theorem txnLoop_append_ok (pre l : List Item) :
    ∀ st : Ex1.TxnSt, (∀ i ∈ pre, (Ex1.txnItem? i).isSome) →
      Ex1.txnLoop st (pre ++ l) = Ex1.txnLoop (pre.foldl Ex1.txnStep st) l := by
  induction pre with
  | nil => intro st _; rfl
  | cons i t ih =>
      intro st h
      have hi := h i (List.mem_cons_self i t)
      cases hq : Ex1.txnItem? i with
      | none => rw [hq] at hi; simp at hi
      | some bv =>
          obtain ⟨b, v⟩ := bv
          cases b <;>
            simp only [List.cons_append, Ex1.txnLoop, hq, List.foldl_cons,
              Ex1.txnStep] <;>
            exact ih _ (fun j hj => h j (List.mem_cons_of_mem _ hj))

theorem txnLoop_fails (batch : List Item) :
    ∀ st : Ex1.TxnSt, (∃ i ∈ batch, Ex1.txnItem? i = Option.none) →
      (Ex1.txnLoop st batch).2 = false := by
  induction batch with
  | nil => intro st h; simp at h
  | cons i t ih =>
      intro st h
      cases hq : Ex1.txnItem? i with
      | none => simp [Ex1.txnLoop, hq]
      | some bv =>
          obtain ⟨b, v⟩ := bv
          have htail : ∃ j ∈ t, Ex1.txnItem? j = Option.none := by
            obtain ⟨j, hj, hjn⟩ := h
            rcases List.mem_cons.mp hj with rfl | hmem
            · rw [hq] at hjn; cases hjn
            · exact ⟨j, hmem, hjn⟩
          cases b <;> simp only [Ex1.txnLoop, hq] <;> exact ih _ htail

theorem txnLoop_ok (batch : List Item) :
    ∀ st : Ex1.TxnSt, (∀ i ∈ batch, (Ex1.txnItem? i).isSome) →
      Ex1.txnLoop st batch =
        (⟨st.buys + buySum batch, st.sells + sellSum batch⟩, true) := by
  induction batch with
  | nil => intro st _; simp [Ex1.txnLoop, buySum, sellSum]
  | cons i t ih =>
      intro st h
      have hi := h i (List.mem_cons_self i t)
      cases hq : Ex1.txnItem? i with
      | none => rw [hq] at hi; simp at hi
      | some bv =>
          obtain ⟨b, v⟩ := bv
          have ht := fun j hj => h j (List.mem_cons_of_mem _ hj)
          cases b
          · simp only [Ex1.txnLoop, hq]
            rw [ih _ ht]
            simp only [buySum, sellSum, List.map_cons, List.sum_cons, buyMag,
              sellMag, hq, Prod.mk.injEq, Ex1.TxnSt.mk.injEq]
            exact ⟨⟨by omega, by omega⟩, trivial⟩
          · simp only [Ex1.txnLoop, hq]
            rw [ih _ ht]
            simp only [buySum, sellSum, List.map_cons, List.sum_cons, buyMag,
              sellMag, hq, Prod.mk.injEq, Ex1.TxnSt.mk.injEq]
            exact ⟨⟨by omega, by omega⟩, trivial⟩

theorem evLoop_append_ok (pre l : List Item) :
    ∀ st : Ex1.EvSt, (∀ i ∈ pre, i.isStr = true) →
      Ex1.evLoop st (pre ++ l) = Ex1.evLoop (pre.foldl Ex1.evStep st) l := by
  induction pre with
  | nil => intro st _; rfl
  | cons i t ih =>
      intro st h
      cases i with
      | other tag => have := h _ (List.mem_cons_self _ t); simp [Item.isStr] at this
      | str s =>
          simp only [List.cons_append, Ex1.evLoop, List.foldl_cons, Ex1.evStep]
          exact ih _ (fun j hj => h j (List.mem_cons_of_mem _ hj))

theorem evLoop_fails (batch : List Item) :
    ∀ st : Ex1.EvSt, (∃ i ∈ batch, i.isStr = false) →
      (Ex1.evLoop st batch).2 = false := by
  induction batch with
  | nil => intro st h; simp at h
  | cons i t ih =>
      intro st h
      cases i with
      | other tag => simp [Ex1.evLoop]
      | str s =>
          simp only [Ex1.evLoop]
          apply ih
          obtain ⟨j, hj, hjn⟩ := h
          rcases List.mem_cons.mp hj with rfl | hmem
          · simp [Item.isStr] at hjn
          · exact ⟨j, hmem, hjn⟩

theorem evLoop_ok (batch : List Item) :
    ∀ st : Ex1.EvSt, (∀ i ∈ batch, i.isStr = true) →
      Ex1.evLoop st batch =
        (⟨st.events + batch.length,
          st.errors + batch.count (Item.str "error")⟩, true) := by
  induction batch with
  | nil => intro st _; simp [Ex1.evLoop]
  | cons i t ih =>
      intro st h
      cases i with
      | other tag => have := h _ (List.mem_cons_self _ t); simp [Item.isStr] at this
      | str s =>
          simp only [Ex1.evLoop]
          rw [ih _ (fun j hj => h j (List.mem_cons_of_mem _ hj))]
          by_cases hs : s = "error" <;>
            simp [hs, List.count_cons, Prod.mk.injEq, Ex1.EvSt.mk.injEq] <;>
            omega

theorem txnDelta_of_buySell (i : Item) (b : Bool) (v : Int)
    (h : MainPy.buySell? i = some (b, v)) :
    MainPy.txnDelta i = .ok (if b then v else -v) := by
  cases i with
  | other tag => simp [MainPy.buySell?] at h
  | str s =>
      cases hsp : strSplit s ':' with
      | nil => simp [MainPy.buySell?, hsp] at h
      | cons a rest =>
          cases rest with
          | nil => simp [MainPy.buySell?, hsp] at h
          | cons vs rest2 =>
              cases rest2 with
              | cons x rest3 => simp [MainPy.buySell?, hsp] at h
              | nil =>
                  have hc := strSplit_pair_contains s a vs hsp
                  simp only [MainPy.buySell?, hsp] at h
                  simp only [MainPy.txnDelta, hc, if_true, hsp]
                  by_cases hb : a = "buy"
                  · simp only [hb, if_true] at h ⊢
                    cases hpi : pyInt? vs with
                    | none => rw [hpi] at h; simp at h
                    | some w =>
                        rw [hpi] at h
                        simp at h
                        obtain ⟨hbb, hvv⟩ := h
                        subst hbb; subst hvv
                        simp
                  · by_cases hs2 : a = "sell"
                    · simp only [hb, hs2, if_false, if_true] at h ⊢
                      cases hpi : pyInt? vs with
                      | none => rw [hpi] at h; simp at h
                      | some w =>
                          rw [hpi] at h
                          simp at h
                          obtain ⟨hbb, hvv⟩ := h
                          subst hbb; subst hvv
                          simp
                    · simp [hb, hs2] at h

theorem netLoop_ok (batch : List Item) :
    ∀ acc : Int, (∀ i ∈ batch, (MainPy.buySell? i).isSome) →
      MainPy.netLoop acc batch =
        .ok (acc + (MainPy.buySumM batch - MainPy.sellSumM batch)) := by
  induction batch with
  | nil => intro acc _; simp [MainPy.netLoop, MainPy.buySumM, MainPy.sellSumM]
  | cons i t ih =>
      intro acc h
      have hi := h i (List.mem_cons_self i t)
      cases hq : MainPy.buySell? i with
      | none => rw [hq] at hi; simp at hi
      | some bv =>
          obtain ⟨b, v⟩ := bv
          have hd := txnDelta_of_buySell i b v hq
          simp only [MainPy.netLoop, hd]
          rw [ih _ (fun j hj => h j (List.mem_cons_of_mem _ hj))]
          simp only [MainPy.buySumM, MainPy.sellSumM, List.map_cons,
            List.sum_cons, hq]
          cases b <;> simp <;> ring_nf

theorem netLoop_error_iff (batch : List Item) :
    ∀ acc : Int, (∃ e, MainPy.netLoop acc batch = .error e) ↔
      (∃ i ∈ batch, ∃ e, MainPy.txnDelta i = .error e) := by
  induction batch with
  | nil => intro acc; simp [MainPy.netLoop]
  | cons i t ih =>
      intro acc
      cases hd : MainPy.txnDelta i with
      | error e =>
          simp only [MainPy.netLoop, hd]
          constructor
          · intro _; exact ⟨i, List.mem_cons_self i t, e, hd⟩
          · intro _; exact ⟨e, rfl⟩
      | ok d =>
          simp only [MainPy.netLoop, hd]
          rw [ih]
          constructor
          · rintro ⟨j, hj, he⟩
            exact ⟨j, List.mem_cons_of_mem _ hj, he⟩
          · rintro ⟨j, hj, he⟩
            rcases List.mem_cons.mp hj with rfl | hm
            · rw [hd] at he
              obtain ⟨e, he⟩ := he
              cases he
            · exact ⟨j, hm, he⟩

theorem pyCount_eq_count (batch : List Item) (x : Item) :
    MainPy.pyCount batch x = batch.count x := by
  induction batch with
  | nil => rfl
  | cons i t ih =>
      by_cases hix : i = x
      · simp [MainPy.pyCount, List.count_cons, hix, ih]
        omega
      · simp [MainPy.pyCount, List.count_cons, hix, ih]

theorem chainFold_append (pre l : List Ex2.Pipeline) :
    ∀ d : Ex2.PyV, Ex2.NexusManager.chainFold d (pre ++ l) =
      match Ex2.NexusManager.chainFold d pre with
      | .ok v => Ex2.NexusManager.chainFold v l
      | .error e => .error e := by
  induction pre with
  | nil => intro d; rfl
  | cons p t ih =>
      intro d
      simp only [List.cons_append, Ex2.NexusManager.chainFold]
      cases p.process d <;> simp [ih]

theorem signedRepr_plus_iff (n : Int) :
    (∃ t : String, Ex1.signedRepr n = "+" ++ t) ↔ 0 ≤ n := by
  constructor
  · rintro ⟨t, ht⟩
    by_contra hn
    push_neg at hn
    rw [Ex1.signedRepr, if_neg (by omega)] at ht
    obtain ⟨m, rfl⟩ : ∃ m : Nat, n = Int.negSucc m := by
      cases n with
      | ofNat k => exact absurd hn (not_lt.mpr (Int.ofNat_nonneg k))
      | negSucc m => exact ⟨m, rfl⟩
    have hds := congrArg (fun s => s.data.head?) ht
    obtain ⟨td⟩ := t
    have hrepr : toString (Int.negSucc m) = "-" ++ Nat.repr (m + 1) := rfl
    rw [hrepr] at hds
    obtain ⟨rd⟩ := Nat.repr (m + 1)
    simp [String.data] at hds
  · intro hn
    exact ⟨toString n, by rw [Ex1.signedRepr, if_pos hn]⟩

theorem pySum_map_intv (xs : List Int) :
    Ex0.NumericProcessor.pySum (xs.map Ex0.PyX.intv) = .ok xs.sum := by
  induction xs with
  | nil => rfl
  | cons n t ih => simp [Ex0.NumericProcessor.pySum, ih, Except.map]

/-! ## Claims -/

/-- C8: for every stream handler variant, `filter_data(batch, None)` returns
the batch unchanged (identity law), across the `main.py` base class and all
overrides and across the ex1 base class and override. -/
theorem claim8_filter_identity :
    (∀ batch : List Item, MainPy.DataStream.filter_data batch Option.none = batch)
    ∧ (∀ batch : List Item, MainPy.SensorStream.filter_data batch Option.none = batch)
    ∧ (∀ batch : List Item,
        MainPy.TransactionStream.filter_data batch Option.none = .ok batch)
    ∧ (∀ batch : List Item, MainPy.EventStream.filter_data batch Option.none = batch)
    ∧ (∀ batch : List Item, Ex1.DataStream.filter_data batch Option.none = .ok batch)
    ∧ (∀ batch : List Item,
        Ex1.TransactionStream.filter_data batch Option.none = .ok batch) :=
  ⟨fun _ => rfl, fun _ => rfl, fun _ => rfl, fun _ => rfl, fun _ => rfl,
   fun _ => rfl⟩

/-- C10: `NumericProcessor`'s aggregates are class-level shared state — after
a `process` call on a valid non-empty list of integers the single shared
`sum_data` has grown by the list's sum, and `get_data` returns the same
totals no matter which instance it is observed through (it reads only the
class state). -/
theorem claim10_shared_class_state :
    ∀ (cs : Ex0.ClassState) (xs : List Int), xs ≠ [] →
      ∃ (msg : String) (cs2 : Ex0.ClassState),
        Ex0.NumericProcessor.process cs (Ex0.PyX.list (xs.map Ex0.PyX.intv)) =
          .ok (msg, cs2) ∧
        cs2.sum_data = cs.sum_data + xs.sum ∧
        ∀ inst1 inst2 : Nat,
          Ex0.NumericProcessor.get_data inst1 cs2 =
            Ex0.NumericProcessor.get_data inst2 cs2 := by
  intro cs xs h
  have hval : Ex0.NumericProcessor.validate
      (Ex0.PyX.list (xs.map Ex0.PyX.intv)) = true := by
    cases xs with
    | nil => exact absurd rfl h
    | cons n t =>
        simp [Ex0.NumericProcessor.validate, List.all_map, Function.comp,
          Ex0.intOk]
  simp only [Ex0.NumericProcessor.process, hval, if_true, pySum_map_intv]
  exact ⟨_, _, rfl, rfl, fun _ _ => rfl⟩

/-- Witness for C10 at a concrete input. -/
theorem claim10_witness :
    ∃ (msg : String) (cs2 : Ex0.ClassState),
      Ex0.NumericProcessor.process ⟨0, Option.none⟩
          (Ex0.PyX.list (([1, 2, 3] : List Int).map Ex0.PyX.intv)) =
        .ok (msg, cs2) ∧
      cs2.sum_data = (⟨0, Option.none⟩ : Ex0.ClassState).sum_data +
        ([1, 2, 3] : List Int).sum ∧
      ∀ inst1 inst2 : Nat,
        Ex0.NumericProcessor.get_data inst1 cs2 =
          Ex0.NumericProcessor.get_data inst2 cs2 :=
  claim10_shared_class_state ⟨0, Option.none⟩ [1, 2, 3] (by decide)

/-- C4: `NexusManager.process_data` invokes `process` on the first pipeline
in registration order whose adapter class matches the requested format and
returns its result; when no registered pipeline matches, it raises the
routing failure (`PipelineError`) whose message names the requested
format. -/
theorem claim4_routing :
    (∀ (pre : List Ex2.Pipeline) (p : Ex2.Pipeline) (post : List Ex2.Pipeline)
       (data : Ex2.PyV) (fmt : String),
       (∀ q ∈ pre, Ex2.matchesFmt q fmt = false) → Ex2.matchesFmt p fmt = true →
       Ex2.NexusManager.process_data (pre ++ p :: post) data fmt = p.process data)
    ∧ (∀ (pipes : List Ex2.Pipeline) (data : Ex2.PyV) (fmt : String),
       (∀ q ∈ pipes, Ex2.matchesFmt q fmt = false) →
       Ex2.NexusManager.process_data pipes data fmt =
         .error (.pipelineError (" No suitable pipeline found for " ++ fmt)))
    ∧ (∀ fmt : String, ∃ a b : String,
       (" No suitable pipeline found for " ++ fmt) = a ++ fmt ++ b) := by
  refine ⟨?_, ?_, fun fmt => ⟨" No suitable pipeline found for ", "", by simp⟩⟩
  · intro pre
    induction pre with
    | nil =>
        intro p post data fmt _ hp
        simp [Ex2.NexusManager.process_data, hp]
    | cons q t ih =>
        intro p post data fmt hpre hp
        have hq := hpre q (List.mem_cons_self q t)
        simp only [List.cons_append, Ex2.NexusManager.process_data, hq,
          Bool.false_eq_true, if_false]
        exact ih p post data fmt (fun r hr => hpre r (List.mem_cons_of_mem _ hr)) hp
  · intro pipes
    induction pipes with
    | nil => intro data fmt _; rfl
    | cons q t ih =>
        intro data fmt h
        have hq := h q (List.mem_cons_self q t)
        simp only [Ex2.NexusManager.process_data, hq, Bool.false_eq_true,
          if_false]
        exact ih data fmt (fun r hr => h r (List.mem_cons_of_mem _ hr))

/-- Witness for C4: routing to the only matching pipeline, and the claim's
concrete scenario — requesting `"xml"` with only a JSON pipeline registered
fails with the routing error naming `"xml"`. -/
theorem claim4_witness :
    Ex2.NexusManager.process_data
        ([] ++ (⟨"JSON_001", Ex2.AdapterKind.json,
                 [Ex2.Stage.input, Ex2.Stage.transform, Ex2.Stage.output]⟩ :
                Ex2.Pipeline) :: [])
        (Ex2.PyV.str "payload") "json" =
      Ex2.Pipeline.process
        ⟨"JSON_001", Ex2.AdapterKind.json,
         [Ex2.Stage.input, Ex2.Stage.transform, Ex2.Stage.output]⟩
        (Ex2.PyV.str "payload")
    ∧ Ex2.NexusManager.process_data
        [⟨"JSON_001", Ex2.AdapterKind.json,
          [Ex2.Stage.input, Ex2.Stage.transform, Ex2.Stage.output]⟩]
        (Ex2.PyV.str "payload") "xml" =
      .error (.pipelineError (" No suitable pipeline found for " ++ "xml")) :=
  ⟨claim4_routing.1 [] _ [] _ "json" (fun q hq => by cases hq) rfl,
   claim4_routing.2.1 _ _ "xml" (by intro q hq; cases hq with
     | head => rfl
     | tail _ hq2 => cases hq2)⟩

/-- C1 (amended): when some pipeline of the chain fails, `execute_chain`
catches the exception (nothing escapes to the caller) but returns `None` —
not the last successfully computed value; when every pipeline succeeds it
returns the final pipeline's output. -/
theorem claim1_chain_abort :
    (∀ (data : Ex2.PyV) (pre : List Ex2.Pipeline) (p : Ex2.Pipeline)
       (post : List Ex2.Pipeline) (v : Ex2.PyV) (e : PyErr),
       Ex2.NexusManager.chainFold data pre = .ok v →
       p.process v = .error e →
       Ex2.NexusManager.execute_chain data (pre ++ p :: post) = Option.none)
    ∧ (∀ (data : Ex2.PyV) (chain : List Ex2.Pipeline) (v : Ex2.PyV),
       Ex2.NexusManager.chainFold data chain = .ok v →
       Ex2.NexusManager.execute_chain data chain = some v) := by
  constructor
  · intro data pre p post v e hpre hp
    unfold Ex2.NexusManager.execute_chain
    rw [chainFold_append, hpre]
    simp only [Ex2.NexusManager.chainFold, hp]
  · intro data chain v h
    unfold Ex2.NexusManager.execute_chain
    rw [h]

/-- Witness for C1: a two-pipeline chain where pipeline 1 (no stages)
succeeds with output `""` and pipeline 2's input stage fails on the empty
payload — `execute_chain` returns `None`; and an all-success chain returns
the final value. -/
theorem claim1_witness :
    Ex2.NexusManager.execute_chain (Ex2.PyV.str "")
        ([(⟨"P1", Ex2.AdapterKind.json, []⟩ : Ex2.Pipeline)] ++
         (⟨"P2", Ex2.AdapterKind.json, [Ex2.Stage.input]⟩ : Ex2.Pipeline) :: []) =
      Option.none
    ∧ Ex2.NexusManager.execute_chain (Ex2.PyV.str "go")
        [⟨"P1", Ex2.AdapterKind.json, []⟩] = some (Ex2.PyV.str "go") :=
  ⟨claim1_chain_abort.1 _ _ _ _ (Ex2.PyV.str "") (.valueError "Impty data!")
     rfl rfl,
   claim1_chain_abort.2 _ _ (Ex2.PyV.str "go") rfl⟩

/-- Counterexample for C1 as stated: pipeline 1 succeeds with output `""`,
pipeline 2 fails, yet `execute_chain` returns `None` rather than pipeline
1's output `""`. -/
theorem claim1_counterexample :
    Ex2.NexusManager.chainFold (Ex2.PyV.str "")
        [(⟨"P1", Ex2.AdapterKind.json, []⟩ : Ex2.Pipeline)] = .ok (Ex2.PyV.str "")
    ∧ Ex2.NexusManager.execute_chain (Ex2.PyV.str "")
        [⟨"P1", Ex2.AdapterKind.json, []⟩,
         ⟨"P2", Ex2.AdapterKind.json, [Ex2.Stage.input]⟩] = Option.none
    ∧ (Option.none : Option Ex2.PyV) ≠ some (Ex2.PyV.str "") :=
  ⟨rfl, rfl, by simp⟩

/-- C3: on a freshly constructed `TransactionStream`, a batch of well-formed
buy/sell items reports net flow = sum of buy magnitudes − sum of sell
magnitudes, the rendered net flow carries a `+` exactly when it is
non-negative (both for ex1's stateful handler and for src/main.py's
stateless one), and the concrete batch `["buy:100","sell:150","buy:75"]`
yields net flow 25 with `"+25"` in the summary. -/
theorem claim3_net_flow :
    (∀ batch : List Item, (∀ i ∈ batch, (Ex1.txnItem? i).isSome) →
       Ex1.TransactionStream.process_batch ⟨0, 0⟩ batch =
         ("ransaction analysis: " ++ toString batch.length ++
          " operations, net flow: " ++
          Ex1.signedRepr (buySum batch - sellSum batch) ++ " units",
          ⟨buySum batch, sellSum batch⟩))
    ∧ (∀ n : Int, (∃ t : String, Ex1.signedRepr n = "+" ++ t) ↔ 0 ≤ n)
    ∧ (∀ batch : List Item, (∀ i ∈ batch, (MainPy.buySell? i).isSome) →
       MainPy.TransactionStream.process_batch batch =
         .ok ("Transaction analysis: " ++ toString batch.length ++
              " operations, net flow: " ++
              (if 0 ≤ MainPy.buySumM batch - MainPy.sellSumM batch then "+" else "") ++
              toString (MainPy.buySumM batch - MainPy.sellSumM batch) ++ " units"))
    ∧ Ex1.TransactionStream.process_batch ⟨0, 0⟩
        [Item.str "buy:100", Item.str "sell:150", Item.str "buy:75"] =
        ("ransaction analysis: 3 operations, net flow: +25 units", ⟨175, 150⟩)
    ∧ (∃ a b : String,
        "ransaction analysis: 3 operations, net flow: +25 units" =
          a ++ "+25" ++ b) := by
  refine ⟨?_, signedRepr_plus_iff, ?_, ?_,
    ⟨"ransaction analysis: 3 operations, net flow: ", " units", rfl⟩⟩
  · intro batch h
    unfold Ex1.TransactionStream.process_batch
    rw [txnLoop_ok batch ⟨0, 0⟩ h]
    simp
  · intro batch h
    unfold MainPy.TransactionStream.process_batch
    rw [netLoop_ok batch 0 h]
    simp [Except.map]
  · rfl

/-- Witness for C3 at the claim's concrete scenario. -/
theorem claim3_witness :
    Ex1.TransactionStream.process_batch ⟨0, 0⟩
        [Item.str "buy:100", Item.str "sell:150", Item.str "buy:75"] =
      ("ransaction analysis: " ++
       toString ([Item.str "buy:100", Item.str "sell:150", Item.str "buy:75"] : List Item).length ++
       " operations, net flow: " ++
       Ex1.signedRepr
         (buySum [Item.str "buy:100", Item.str "sell:150", Item.str "buy:75"] -
          sellSum [Item.str "buy:100", Item.str "sell:150", Item.str "buy:75"]) ++
       " units",
       ⟨buySum [Item.str "buy:100", Item.str "sell:150", Item.str "buy:75"],
        sellSum [Item.str "buy:100", Item.str "sell:150", Item.str "buy:75"]⟩)
    ∧ ((∃ t : String, Ex1.signedRepr 25 = "+" ++ t) ↔ 0 ≤ (25 : Int))
    ∧ MainPy.TransactionStream.process_batch
        [Item.str "buy:100", Item.str "sell:150", Item.str "buy:75"] =
      .ok ("Transaction analysis: " ++
           toString ([Item.str "buy:100", Item.str "sell:150", Item.str "buy:75"] : List Item).length ++
           " operations, net flow: " ++
           (if 0 ≤ MainPy.buySumM [Item.str "buy:100", Item.str "sell:150", Item.str "buy:75"] -
                  MainPy.sellSumM [Item.str "buy:100", Item.str "sell:150", Item.str "buy:75"]
            then "+" else "") ++
           toString (MainPy.buySumM [Item.str "buy:100", Item.str "sell:150", Item.str "buy:75"] -
                     MainPy.sellSumM [Item.str "buy:100", Item.str "sell:150", Item.str "buy:75"]) ++
           " units") :=
  ⟨claim3_net_flow.1 _ (by decide), claim3_net_flow.2.1 25,
   claim3_net_flow.2.2.1 _ (by decide)⟩

/-- C2 (amended): a batch that fails validation does NOT leave the ex1
handlers' state unchanged — the state after the call is the per-item commit
folded over the items preceding the first invalid one (the items already
processed stay committed), for all three variants. -/
theorem claim2_per_item_commit :
    (∀ (st : Ex1.SensorSt) (pre : List Item) (bad : Item) (rest : List Item),
       (∀ i ∈ pre, (Ex1.sensorItem? i).isSome) →
       Ex1.sensorItem? bad = Option.none →
       Ex1.SensorStream.process_batch st (pre ++ bad :: rest) =
         ("Sensor analysis: 0 readings.", pre.foldl Ex1.sensorStep st))
    ∧ (∀ (st : Ex1.TxnSt) (pre : List Item) (bad : Item) (rest : List Item),
       (∀ i ∈ pre, (Ex1.txnItem? i).isSome) →
       Ex1.txnItem? bad = Option.none →
       Ex1.TransactionStream.process_batch st (pre ++ bad :: rest) =
         ("ransaction analysis: 0 operations.", pre.foldl Ex1.txnStep st))
    ∧ (∀ (st : Ex1.EvSt) (pre : List Item) (tag : Nat) (rest : List Item),
       (∀ i ∈ pre, i.isStr = true) →
       Ex1.EventStream.process_batch st (pre ++ Item.other tag :: rest) =
         ("Event analysis: 0 events", pre.foldl Ex1.evStep st)) := by
  refine ⟨?_, ?_, ?_⟩
  · intro st pre bad rest hpre hbad
    unfold Ex1.SensorStream.process_batch
    rw [sensorLoop_append_ok pre (bad :: rest) st hpre]
    simp [Ex1.sensorLoop, hbad]
  · intro st pre bad rest hpre hbad
    unfold Ex1.TransactionStream.process_batch
    rw [txnLoop_append_ok pre (bad :: rest) st hpre]
    simp [Ex1.txnLoop, hbad]
  · intro st pre tag rest hpre
    unfold Ex1.EventStream.process_batch
    rw [evLoop_append_ok pre (Item.other tag :: rest) st hpre]
    simp [Ex1.evLoop]

/-- Witness for C2's amended statement at concrete failing batches. -/
theorem claim2_witness :
    Ex1.SensorStream.process_batch ⟨0, 0⟩
        ([Item.str "temp:20"] ++ Item.other 0 :: []) =
      ("Sensor analysis: 0 readings.",
       [Item.str "temp:20"].foldl Ex1.sensorStep ⟨0, 0⟩)
    ∧ Ex1.TransactionStream.process_batch ⟨0, 0⟩
        ([Item.str "buy:100"] ++ Item.other 0 :: []) =
      ("ransaction analysis: 0 operations.",
       [Item.str "buy:100"].foldl Ex1.txnStep ⟨0, 0⟩)
    ∧ Ex1.EventStream.process_batch ⟨0, 0⟩
        ([Item.str "login"] ++ Item.other 7 :: []) =
      ("Event analysis: 0 events", [Item.str "login"].foldl Ex1.evStep ⟨0, 0⟩) :=
  ⟨claim2_per_item_commit.1 ⟨0, 0⟩ _ _ _ (by decide) (by decide),
   claim2_per_item_commit.2.1 ⟨0, 0⟩ _ _ _ (by decide) (by decide),
   claim2_per_item_commit.2.2 ⟨0, 0⟩ _ _ _ (by decide)⟩

/-- Counterexample for C2 as stated: a fresh `SensorStream` given the batch
`["temp:20", <non-string>]` reports the zero-result summary, yet its private
state has changed — `__sensor_report` is 1 and `__avg_t` is 20, not the
fresh `(0, 0)`. -/
theorem claim2_counterexample :
    Ex1.SensorStream.process_batch ⟨0, 0⟩ [Item.str "temp:20", Item.other 0] =
      ("Sensor analysis: 0 readings.", ⟨1, 20⟩)
    ∧ (⟨1, 20⟩ : Ex1.SensorSt) ≠ ⟨0, 0⟩ := by
  exact ⟨by decide, by decide⟩

/-- C5 (amended): the ex1 handlers never raise past `process_batch` — any
batch containing a malformed item makes the whole call report the variant's
zero-result summary; but src/main.py's `TransactionStream.process_batch`
does raise: it fails with an exception exactly when the batch contains a
string item with a `:` that does not split into two fields with an integer
magnitude. -/
theorem claim5_zero_result :
    (∀ (st : Ex1.SensorSt) (batch : List Item),
       (∃ i ∈ batch, Ex1.sensorItem? i = Option.none) →
       (Ex1.SensorStream.process_batch st batch).1 = "Sensor analysis: 0 readings.")
    ∧ (∀ (st : Ex1.TxnSt) (batch : List Item),
       (∃ i ∈ batch, Ex1.txnItem? i = Option.none) →
       (Ex1.TransactionStream.process_batch st batch).1 =
         "ransaction analysis: 0 operations.")
    ∧ (∀ (st : Ex1.EvSt) (batch : List Item),
       (∃ i ∈ batch, i.isStr = false) →
       (Ex1.EventStream.process_batch st batch).1 = "Event analysis: 0 events")
    ∧ (∀ batch : List Item,
       (∃ e, MainPy.TransactionStream.process_batch batch = .error e) ↔
       (∃ i ∈ batch, ∃ e, MainPy.txnDelta i = .error e)) := by
  refine ⟨?_, ?_, ?_, ?_⟩
  · intro st batch h
    unfold Ex1.SensorStream.process_batch
    have hf := sensorLoop_fails batch st h
    rcases hres : Ex1.sensorLoop st batch with ⟨st2, flag⟩
    rw [hres] at hf
    simp only at hf
    subst hf
    simp
  · intro st batch h
    unfold Ex1.TransactionStream.process_batch
    have hf := txnLoop_fails batch st h
    rcases hres : Ex1.txnLoop st batch with ⟨st2, flag⟩
    rw [hres] at hf
    simp only at hf
    subst hf
    simp
  · intro st batch h
    unfold Ex1.EventStream.process_batch
    have hf := evLoop_fails batch st h
    rcases hres : Ex1.evLoop st batch with ⟨st2, flag⟩
    rw [hres] at hf
    simp only at hf
    subst hf
    simp
  · intro batch
    rw [← netLoop_error_iff batch 0]
    unfold MainPy.TransactionStream.process_batch
    constructor
    · rintro ⟨e, he⟩
      cases hn : MainPy.netLoop 0 batch with
      | error e2 => exact ⟨e2, rfl⟩
      | ok v => rw [hn] at he; simp [Except.map] at he
    · rintro ⟨e, he⟩
      rw [he]
      exact ⟨e, rfl⟩

/-- Witness for C5's amended statement at concrete malformed batches. -/
theorem claim5_witness :
    (Ex1.SensorStream.process_batch ⟨0, 0⟩ [Item.str "temp:abc"]).1 =
      "Sensor analysis: 0 readings."
    ∧ (Ex1.TransactionStream.process_batch ⟨0, 0⟩ [Item.str "hold:10"]).1 =
      "ransaction analysis: 0 operations."
    ∧ (Ex1.EventStream.process_batch ⟨0, 0⟩ [Item.other 3]).1 =
      "Event analysis: 0 events"
    ∧ ((∃ e, MainPy.TransactionStream.process_batch [Item.str "buy:abc"] = .error e) ↔
       (∃ i ∈ [Item.str "buy:abc"], ∃ e, MainPy.txnDelta i = .error e)) :=
  ⟨claim5_zero_result.1 ⟨0, 0⟩ _ (by decide),
   claim5_zero_result.2.1 ⟨0, 0⟩ _ (by decide),
   claim5_zero_result.2.2.1 ⟨0, 0⟩ _ (by decide),
   claim5_zero_result.2.2.2 [Item.str "buy:abc"]⟩

/-- Counterexample for C5 as stated: src/main.py's
`TransactionStream.process_batch` has no `try`/`except` — on the batch
`["buy:abc"]` the `int("abc")` conversion raises a `ValueError` that
propagates to the caller instead of a zero-result summary. -/
theorem claim5_counterexample :
    MainPy.TransactionStream.process_batch [Item.str "buy:abc"] =
      .error (.valueError "invalid literal for int() with base 10")
    ∧ ¬ ∃ s : String,
        MainPy.TransactionStream.process_batch [Item.str "buy:abc"] = .ok s := by
  refine ⟨rfl, ?_⟩
  rintro ⟨s, hs⟩
  rw [show MainPy.TransactionStream.process_batch [Item.str "buy:abc"] =
      .error (.valueError "invalid literal for int() with base 10") from rfl] at hs
  cases hs

/-- C6 (amended): `OutputStage.process` classifies a sensor-like mapping's
numeric value with the source's *strict* comparisons — high exactly when the
value is `> 40`, low exactly when `< 5`, normal for `5 ≤ value ≤ 40` (so 40
and 5 themselves are "Normal range", against the claim's `≥`/`≤` bands); the
claim's concrete payload run through the Input→Transform→Output pipeline is
classified "Normal range". -/
theorem claim6_classification :
    (∀ (entries : List (String × Ex2.PyV)) (v : Ex2.PyV) (u : String) (q : ℚ),
       entries.lookup "headers" = Option.none →
       entries.lookup "value" = some v →
       entries.lookup "unit" = some (Ex2.PyV.str u) →
       Ex2.pyToRat? v = some q →
       Ex2.OutputStage.process (.dict entries) =
         .ok (.str ("Processed Temperature reading:" ++ Ex2.pyFStr v ++ "°" ++ u ++
               (if 40 < q then " (High range)"
                else if q < 5 then " (Low range)"
                else " (Normal range)")),
              .dict entries))
    ∧ Ex2.Pipeline.process
        ⟨"JSON_001", Ex2.AdapterKind.json,
         [Ex2.Stage.input, Ex2.Stage.transform, Ex2.Stage.output]⟩
        (Ex2.PyV.dict [("sensor", Ex2.PyV.str "temp"),
                       ("value", Ex2.PyV.floatv (mkRat 47 2)),
                       ("unit", Ex2.PyV.str "C")]) =
      .ok (.str "Processed Temperature reading:23.5°C (Normal range)") := by
  constructor
  · intro entries v u q h1 h2 h3 h4
    unfold Ex2.OutputStage.process
    simp only [h1, h2, h3, h4, Option.isSome_none, Bool.false_eq_true, if_false,
      Ex2.pyFStr]
  · rfl

/-- Witness for C6's amended statement at the claim's concrete payload. -/
theorem claim6_witness :
    Ex2.OutputStage.process
        (.dict [("sensor", Ex2.PyV.str "temp"), ("value", Ex2.PyV.floatv (mkRat 47 2)),
                ("unit", Ex2.PyV.str "C")]) =
      .ok (.str ("Processed Temperature reading:" ++
             Ex2.pyFStr (Ex2.PyV.floatv (mkRat 47 2)) ++ "°" ++ "C" ++
             (if 40 < (mkRat 47 2) then " (High range)"
              else if (mkRat 47 2) < 5 then " (Low range)"
              else " (Normal range)")),
           .dict [("sensor", Ex2.PyV.str "temp"), ("value", Ex2.PyV.floatv (mkRat 47 2)),
                  ("unit", Ex2.PyV.str "C")]) :=
  claim6_classification.1 _ (Ex2.PyV.floatv (mkRat 47 2)) "C" (mkRat 47 2) rfl rfl rfl rfl

/-- Counterexample for C6 as stated: at value 40 the code renders
"(Normal range)" while the claim's `high when value ≥ 40` band demands
"(High range)". -/
theorem claim6_counterexample :
    Ex2.OutputStage.process
        (.dict [("sensor", Ex2.PyV.str "temp"), ("value", Ex2.PyV.intv 40),
                ("unit", Ex2.PyV.str "C")]) =
      .ok (.str "Processed Temperature reading:40°C (Normal range)",
           .dict [("sensor", Ex2.PyV.str "temp"), ("value", Ex2.PyV.intv 40),
                  ("unit", Ex2.PyV.str "C")])
    ∧ Ex2.specClassify 40 = " (High range)"
    ∧ (" (Normal range)" : String) ≠ " (High range)" := by
  refine ⟨rfl, ?_, by decide⟩
  rw [Ex2.specClassify, if_pos le_rfl]

/-- C7 (amended): src/main.py's stateless `EventStream` reports, on every
call, event count = batch length and error count = occurrences of the
`"error"` marker; the ex1 `EventStream` instead accumulates — a call on a
batch of strings reports the *running totals* (prior events + batch length,
prior errors + marker occurrences), so it matches the claim only from a
state with zero totals (e.g. a fresh instance). -/
theorem claim7_event_counts :
    (∀ batch : List Item,
       MainPy.EventStream.process_batch batch =
         "Event analysis: " ++ toString batch.length ++ " events, " ++
         toString (batch.count (Item.str "error")) ++ " error detected")
    ∧ (∀ (st : Ex1.EvSt) (batch : List Item), (∀ i ∈ batch, i.isStr = true) →
       Ex1.EventStream.process_batch st batch =
         ("Event analysis: " ++ toString (st.events + batch.length) ++
          " events, " ++ toString (st.errors + batch.count (Item.str "error")) ++
          " error detected",
          ⟨st.events + batch.length,
           st.errors + batch.count (Item.str "error")⟩)) := by
  constructor
  · intro batch
    unfold MainPy.EventStream.process_batch
    rw [pyCount_eq_count]
  · intro st batch h
    unfold Ex1.EventStream.process_batch
    rw [evLoop_ok batch st h]

/-- Witness for C7's amended statement at the claim's concrete event batch
on a fresh handler. -/
theorem claim7_witness :
    Ex1.EventStream.process_batch ⟨0, 0⟩
        [Item.str "login", Item.str "error", Item.str "logout"] =
      ("Event analysis: " ++
       toString ((⟨0, 0⟩ : Ex1.EvSt).events +
         ([Item.str "login", Item.str "error", Item.str "logout"] : List Item).length) ++
       " events, " ++
       toString ((⟨0, 0⟩ : Ex1.EvSt).errors +
         ([Item.str "login", Item.str "error", Item.str "logout"] : List Item).count
           (Item.str "error")) ++
       " error detected",
       ⟨(⟨0, 0⟩ : Ex1.EvSt).events +
          ([Item.str "login", Item.str "error", Item.str "logout"] : List Item).length,
        (⟨0, 0⟩ : Ex1.EvSt).errors +
          ([Item.str "login", Item.str "error", Item.str "logout"] : List Item).count
            (Item.str "error")⟩) :=
  claim7_event_counts.2 ⟨0, 0⟩ _ (by decide)

/-- Counterexample for C7 as stated: a second `process_batch` call on the
same ex1 `EventStream` instance with the one-element batch `["login"]`
reports 2 events — the cumulative total — not the batch length 1. -/
theorem claim7_counterexample :
    (Ex1.EventStream.process_batch
        (Ex1.EventStream.process_batch ⟨0, 0⟩ [Item.str "login"]).2
        [Item.str "login"]).1 = "Event analysis: 2 events, 0 error detected"
    ∧ ([Item.str "login"] : List Item).length = 1
    ∧ ("Event analysis: 2 events, 0 error detected" : String) ≠
        "Event analysis: 1 events, 0 error detected" :=
  ⟨rfl, rfl, by decide⟩

/-- C9 (amended): `InputStage` and `OutputStage` never mutate the payload
the caller passed in, and `TransformStage` leaves it untouched in every
branch except one: on a mapping containing a `"sensor"` key it annotates the
*caller's* mapping in place with `status: "valid"` (`data["status"] =
"valid"` mutates the argument object, it does not build a new value). -/
theorem claim9_stage_purity :
    ∀ (st : Ex2.Stage) (d r a : Ex2.PyV), Ex2.Stage.process st d = .ok (r, a) →
      a = (if st = Ex2.Stage.transform ∧ Ex2.sensorDictCond d = true
           then Ex2.annotated d else d) := by
  intro st d r a h
  cases st with
  | input =>
      rw [if_neg (by simp)]
      simp only [Ex2.Stage.process, Ex2.InputStage.process] at h
      split at h
      · simp only [Except.ok.injEq, Prod.mk.injEq] at h
        exact h.2.symm
      · cases h
  | transform =>
      cases d with
      | dict entries =>
          simp only [Ex2.Stage.process, Ex2.TransformStage.process] at h
          by_cases hs : (entries.lookup "sensor").isSome = true
          · rw [if_pos ⟨rfl, hs⟩]
            rw [if_pos hs] at h
            simp only [Except.ok.injEq, Prod.mk.injEq] at h
            exact h.2.symm
          · rw [if_neg (by simp [Ex2.sensorDictCond, hs])]
            rw [if_neg hs] at h
            simp only [Except.ok.injEq, Prod.mk.injEq] at h
            exact h.2.symm
      | str s =>
          simp only [Ex2.Stage.process, Ex2.TransformStage.process] at h
          rw [if_neg (by simp [Ex2.sensorDictCond])]
          split at h
          · cases h
          · split at h
            · simp only [Except.ok.injEq, Prod.mk.injEq] at h
              exact h.2.symm
            · simp only [Except.ok.injEq, Prod.mk.injEq] at h
              exact h.2.symm
      | pynone =>
          simp only [Ex2.Stage.process, Ex2.TransformStage.process] at h
          rw [if_neg (by simp [Ex2.sensorDictCond])]
          simp only [Except.ok.injEq, Prod.mk.injEq] at h
          exact h.2.symm
      | intv n =>
          simp only [Ex2.Stage.process, Ex2.TransformStage.process] at h
          rw [if_neg (by simp [Ex2.sensorDictCond])]
          simp only [Except.ok.injEq, Prod.mk.injEq] at h
          exact h.2.symm
      | floatv q =>
          simp only [Ex2.Stage.process, Ex2.TransformStage.process] at h
          rw [if_neg (by simp [Ex2.sensorDictCond])]
          simp only [Except.ok.injEq, Prod.mk.injEq] at h
          exact h.2.symm
      | list xs =>
          simp only [Ex2.Stage.process, Ex2.TransformStage.process] at h
          rw [if_neg (by simp [Ex2.sensorDictCond])]
          simp only [Except.ok.injEq, Prod.mk.injEq] at h
          exact h.2.symm
  | output =>
      rw [if_neg (by simp)]
      cases d with
      | dict entries =>
          simp only [Ex2.Stage.process, Ex2.OutputStage.process] at h
          split at h
          · split at h
            · cases h
            · simp only [Except.ok.injEq, Prod.mk.injEq] at h
              exact h.2.symm
          · split at h
            · cases h
            · split at h
              · cases h
              · split at h
                · cases h
                · simp only [Except.ok.injEq, Prod.mk.injEq] at h
                  exact h.2.symm
      | str s =>
          simp only [Ex2.Stage.process, Ex2.OutputStage.process] at h
          simp only [Except.ok.injEq, Prod.mk.injEq] at h
          exact h.2.symm
      | pynone => simp only [Ex2.Stage.process, Ex2.OutputStage.process] at h; cases h
      | intv n => simp only [Ex2.Stage.process, Ex2.OutputStage.process] at h; cases h
      | floatv q => simp only [Ex2.Stage.process, Ex2.OutputStage.process] at h; cases h
      | list xs => simp only [Ex2.Stage.process, Ex2.OutputStage.process] at h; cases h

/-- Witness for C9's amended statement: `TransformStage` on a sensor mapping
leaves the caller's object equal to the annotated mapping. -/
theorem claim9_witness :
    Ex2.PyV.dict [("sensor", Ex2.PyV.str "temp"), ("status", Ex2.PyV.str "valid")] =
      (if Ex2.Stage.transform = Ex2.Stage.transform ∧
          Ex2.sensorDictCond (Ex2.PyV.dict [("sensor", Ex2.PyV.str "temp")]) = true
       then Ex2.annotated (Ex2.PyV.dict [("sensor", Ex2.PyV.str "temp")])
       else Ex2.PyV.dict [("sensor", Ex2.PyV.str "temp")]) :=
  claim9_stage_purity Ex2.Stage.transform (Ex2.PyV.dict [("sensor", Ex2.PyV.str "temp")])
    _ _ rfl

/-- Counterexample for C9 as stated: `TransformStage.process` on the mapping
`{"sensor": "temp"}` leaves the caller's object annotated with
`status: "valid"` — an in-place modification, the argument no longer equals
the mapping that was passed in. -/
theorem claim9_counterexample :
    Ex2.TransformStage.process (Ex2.PyV.dict [("sensor", Ex2.PyV.str "temp")]) =
      .ok (Ex2.PyV.dict [("sensor", Ex2.PyV.str "temp"), ("status", Ex2.PyV.str "valid")],
           Ex2.PyV.dict [("sensor", Ex2.PyV.str "temp"), ("status", Ex2.PyV.str "valid")])
    ∧ Ex2.PyV.dict [("sensor", Ex2.PyV.str "temp"), ("status", Ex2.PyV.str "valid")] ≠
        Ex2.PyV.dict [("sensor", Ex2.PyV.str "temp")] := by
  refine ⟨rfl, ?_⟩
  intro h
  have h2 := congrArg
    (fun x => match x with
      | Ex2.PyV.dict entries => entries.length
      | _ => 0) h
  simp at h2
